import Mathlib

/-!
Verification of the billionaires data-analysis dashboard (`analysis.py`).

The dashboard loads a tabular dataset, normalises its currency-formatted
`finalWorth` column, derives `age`, `is_young` and `age_group` columns, and
exposes six analysis views, each a pure render function from the loaded
table and the current control values to chart data.  We embed the data
model, the loader and the render functions as executable Lean definitions
and prove the documented properties about them.

Floating-point worth values are modelled by `Rat`: every value arising in
the claims is an exact decimal, and the Python code performs no arithmetic
on worths other than sums and means.
-/

/-! ## Worth parsing (`analysis.py` line 58)

`df['finalWorth'].replace({'\$': '', ',': ''}, regex=True).astype(float)`
removes every `$` and `,` character from the string and then converts it
with Python `float`.  We model `float` conversion on decimal literals:
an optional sign, an integer part and an optional fractional part. -/

/-- Numeric value of a list of decimal digit characters, most significant
first (the accumulator loop of positional notation). -/
def digitsToNat (l : List Char) : Nat :=
  l.foldl (fun a c => 10 * a + (c.toNat - 48)) 0

/-- Parse an unsigned decimal literal: digits, optionally followed by a dot
and further digits; at least one digit overall.  `none` models a raised
`ValueError`. -/
def parseUnsigned (l : List Char) : Option Rat :=
  let intPart := l.takeWhile Char.isDigit
  let rest := l.dropWhile Char.isDigit
  match rest with
  | [] => if intPart.isEmpty then none else some (digitsToNat intPart : Rat)
  | '.' :: frac =>
      if frac.all Char.isDigit && (!intPart.isEmpty || !frac.isEmpty) then
        some ((digitsToNat intPart : Rat) + (digitsToNat frac : Rat) / (10 ^ frac.length))
      else none
  | _ => none

/-- Parse a decimal literal with an optional leading sign, as Python
`float` does on such strings. -/
def parseSigned (l : List Char) : Option Rat :=
  match l with
  | [] => none
  | c :: rest =>
      if c = '-' then (parseUnsigned rest).map (fun q => -q)
      else if c = '+' then parseUnsigned rest
      else parseUnsigned l

/-- The character filter of `replace({'\$': '', ',': ''}, regex=True)`:
drop every dollar sign and every comma. -/
def stripWorth (s : String) : List Char :=
  s.data.filter (fun c => c != '$' && c != ',')

/-- The complete worth-parsing step of the loader. -/
def parseWorth (s : String) : Option Rat :=
  parseSigned (stripWorth s)

/-! ## Data model and loader (`analysis.py` lines 39, 58-60, 190-191) -/

/-- One row of the source spreadsheet, before normalisation: the worth
field is a currency-formatted string, the remaining fields are read
as-is. -/
structure RawRow where
  finalWorth : String
  birthYear : Int
  category : String
  country : String
  industries : String
  cpi_change_country : Rat
  tax_revenue_country_country : Rat
deriving Repr, DecidableEq

/-- One row of the loaded table, after the loader has parsed the worth and
derived `age`, `is_young` and `age_group`. -/
structure Row where
  finalWorth : Rat
  birthYear : Int
  age : Int
  is_young : Bool
  age_group : String
  category : String
  country : String
  industries : String
  cpi_change_country : Rat
  tax_revenue_country_country : Rat
deriving Repr, DecidableEq

/-- Load one row: parse the worth (failure aborts the load) and derive
`age = 2023 - birthYear`, `is_young = (age < 40)` and
`age_group = 'Young (<40)' / 'Older (>=40)'` exactly as lines 58-60 and
190-191 of `analysis.py` do. -/
def loadRow (raw : RawRow) : Option Row :=
  (parseWorth raw.finalWorth).map fun w =>
    let a : Int := 2023 - raw.birthYear
    { finalWorth := w
      birthYear := raw.birthYear
      age := a
      is_young := decide (a < 40)
      age_group := if a < 40 then "Young (<40)" else "Older (>=40)"
      category := raw.category
      country := raw.country
      industries := raw.industries
      cpi_change_country := raw.cpi_change_country
      tax_revenue_country_country := raw.tax_revenue_country_country }

/-- Load the whole table; any unparsable worth aborts the load, as
`astype(float)` aborts the script at line 58. -/
def loadTable : List RawRow → Option (List Row)
  | [] => some []
  | r :: rs =>
      match loadRow r, loadTable rs with
      | some x, some xs => some (x :: xs)
      | _, _ => none

/-! ## Chart data

Each render function returns a chart object; we retain the data the chart
displays and drop the purely cosmetic options (colors, sizes, titles). -/

/-- The data content of the chart each view renders. -/
inductive Chart where
  /-- Histogram of the worth values of the (possibly filtered) table. -/
  | histChart (worths : List Rat)
  /-- Bar chart of a per-category rational aggregate. -/
  | barChart (data : List (String × Rat))
  /-- Horizontal bar chart of per-country record counts. -/
  | countChart (counts : List (String × Nat))
  /-- Scatter of age against worth. -/
  | ageScatterChart (points : List (Int × Rat))
  /-- Stacked bar chart of counts per (industry, age group) pair. -/
  | stackedChart (counts : List ((String × String) × Nat))
  /-- Line-and-scatter overlay of per-birth-year record counts. -/
  | lineChart (points : List (Int × Nat))
  /-- Scatter of an economic indicator against worth. -/
  | econScatterChart (points : List (Rat × Rat))
deriving Repr, DecidableEq

/-! ## The six analysis views (`analysis.py` lines 84-296) -/

/-- The boolean-mask category filter `df[df['category'] == c]` shared by
the histogram view (line 89) and the country view (line 132). -/
def filterByCategory (c : String) (t : List Row) : List Row :=
  t.filter (fun r => r.category == c)

/-- View 1, `update_histogram` (lines 84-91): histogram of worth, either
over all rows or over the rows of the selected category. -/
def update_histogram (selectedCategory : String) (showAll : Bool) (t : List Row) : Chart :=
  if showAll then .histChart (t.map Row.finalWorth)
  else .histChart ((filterByCategory selectedCategory t).map Row.finalWorth)

/-- The per-category mean of `groupby('category')['finalWorth'].mean()`
(line 108): one entry per distinct category, carrying the arithmetic mean
of the worths of its rows. -/
def avgWealthByCategory (t : List Row) : List (String × Rat) :=
  ((t.map Row.category).dedup).map fun c =>
    (c, ((filterByCategory c t).map Row.finalWorth).sum / ((filterByCategory c t).length : Rat))

set_option linter.unusedVariables false in
/-- View 2, `update_avg_wealth` (lines 107-110): the selected category is
bound as a dependency but never read — the aggregation always runs over
the full table. -/
def update_avg_wealth (selectedCategory : String) (t : List Row) : List (String × Rat) :=
  avgWealthByCategory t

/-- `value_counts` of a column: one entry per distinct value with its
number of occurrences. -/
def value_counts (l : List String) : List (String × Nat) :=
  l.dedup.map fun c => (c, l.count c)

/-- View 3, `update_country_plot` (lines 128-150): per-country record
counts, over the full table when the show-all checkbox is set, otherwise
over the selected category's rows. -/
def update_country_plot (selectedCategory : String) (showAll : Bool) (t : List Row) :
    List (String × Nat) :=
  if showAll then value_counts (t.map Row.country)
  else value_counts ((filterByCategory selectedCategory t).map Row.country)

/-- The inclusive age-range mask
`df[(df['age'] >= lo) & (df['age'] <= hi)]` (lines 170 and 197). -/
def filterAge (lo hi : Int) (t : List Row) : List Row :=
  t.filter (fun r => decide (lo ≤ r.age) && decide (r.age ≤ hi))

/-- View 4, `update_age_wealth_scatter` (lines 169-175): scatter of age
against worth over the age-range-filtered rows, no aggregation. -/
def update_age_wealth_scatter (lo hi : Int) (t : List Row) : Chart :=
  .ageScatterChart ((filterAge lo hi t).map fun r => (r.age, r.finalWorth))

/-- The reshaped data of view 5 (lines 199-200):
`groupby(['industries', 'age_group']).size().unstack(fill_value=0)`
followed by `melt` — one row per (industry, age group) pair drawn from the
values present in the filtered subset, with the pair's record count
(0 when absent, from `fill_value=0`). -/
def youngBillionairesData (lo hi : Int) (t : List Row) : List ((String × String) × Nat) :=
  let f := filterAge lo hi t
  let inds := (f.map Row.industries).dedup
  let ags := (f.map Row.age_group).dedup
  (ags.map fun ag => inds.map fun ind =>
    ((ind, ag), (f.filter fun r => r.industries == ind && r.age_group == ag).length)).flatten

/-- View 5, `update_young_billionaires` (lines 196-207): stacked bar chart
of the counts per (industry, age group) pair of the range-filtered rows. -/
def update_young_billionaires (lo hi : Int) (t : List Row) : Chart :=
  .stackedChart (youngBillionairesData lo hi t)

/-- The inclusive birth-year range mask
`df[(df['birthYear'] >= lo) & (df['birthYear'] <= hi)]`
(lines 232 and 279). -/
def filterBirthYear (lo hi : Int) (t : List Row) : List Row :=
  t.filter (fun r => decide (lo ≤ r.birthYear) && decide (r.birthYear ≤ hi))

/-- View 6a, `update_billionaires_over_time` (lines 231-256): counts of
records per birth year over the year-range- and industry-filtered rows. -/
def update_billionaires_over_time (yearRange : Int × Int) (selectedIndustry : String)
    (t : List Row) : Chart :=
  let f := filterBirthYear yearRange.1 yearRange.2 t
  let f2 := if selectedIndustry == "All Industries" then f
            else f.filter (fun r => r.industries == selectedIndustry)
  .lineChart (((f2.map Row.birthYear).dedup).map fun y =>
    (y, (f2.filter fun r => r.birthYear == y).length))

/-- View 6b, `update_scatter_plot` (lines 278-296): scatter of the chosen
economic indicator against worth over the year-range-filtered rows.  For
an indicator other than the two listed values no branch assigns the
result variable and line 294 raises `UnboundLocalError`; `none` models
that raise. -/
def update_scatter_plot (yearRange : Int × Int) (selectedIndicator : String)
    (t : List Row) : Option Chart :=
  let f := filterBirthYear yearRange.1 yearRange.2 t
  if selectedIndicator == "CPI Change" then
    some (.econScatterChart (f.map fun r => (r.cpi_change_country, r.finalWorth)))
  else if selectedIndicator == "Tax Revenue" then
    some (.econScatterChart (f.map fun r => (r.tax_revenue_country_country, r.finalWorth)))
  else none

/-! ## The reactive layer as a state machine

Each render invocation reads the process-wide table and the current
control values and produces chart data; the table is the only shared
state. -/

/-- The render functions the reactive layer can invoke. -/
inductive ViewId where
  | wealthDistribution
  | avgWealth
  | countryPlot
  | ageWealthScatter
  | youngBillionaires
  | overTime
  | economicIndicators
deriving Repr, DecidableEq

/-- The current values of every control of the dashboard. -/
structure Controls where
  selectedCategory : String
  showAll : Bool
  ageRange : Int × Int
  yearRange : Int × Int
  econYearRange : Int × Int
  selectedIndustry : String
  selectedIndicator : String
deriving Repr, DecidableEq

/-- The process-wide state: the table loaded once at startup. -/
structure DashState where
  table : List Row
deriving Repr, DecidableEq

/-- One render invocation: dispatch to the view's render function with
the current control values, returning the resulting state and the chart
data (`none` when the render function raises).  Every Python render
function only reads `df`, so every branch returns the state unchanged. -/
def renderView (v : ViewId) (c : Controls) (s : DashState) : DashState × Option Chart :=
  match v with
  | .wealthDistribution =>
      (s, some (update_histogram c.selectedCategory c.showAll s.table))
  | .avgWealth =>
      (s, some (.barChart (update_avg_wealth c.selectedCategory s.table)))
  | .countryPlot =>
      (s, some (.countChart (update_country_plot c.selectedCategory c.showAll s.table)))
  | .ageWealthScatter =>
      (s, some (update_age_wealth_scatter c.ageRange.1 c.ageRange.2 s.table))
  | .youngBillionaires =>
      (s, some (update_young_billionaires c.ageRange.1 c.ageRange.2 s.table))
  | .overTime =>
      (s, some (update_billionaires_over_time c.yearRange c.selectedIndustry s.table))
  | .economicIndicators =>
      (s, update_scatter_plot c.econYearRange c.selectedIndicator s.table)

/-! ## Test fixtures: raw and loaded rows used in concrete instantiations -/

/-- A raw row with the given worth string, birth year, category, country
and industry, and indicator fields fixed at 0. -/
def mkRaw (w : String) (birth : Int) (cat ctry ind : String) : RawRow :=
  { finalWorth := w
    birthYear := birth
    category := cat
    country := ctry
    industries := ind
    cpi_change_country := 0
    tax_revenue_country_country := 0 }

/-- A loaded row with the given worth, birth year, category, country and
industry, its derived columns computed as the loader computes them, and
indicator fields fixed at 0. -/
def mkRow (w : Rat) (birth : Int) (cat ctry ind : String) : Row :=
  { finalWorth := w
    birthYear := birth
    age := 2023 - birth
    is_young := decide (2023 - birth < 40)
    age_group := if 2023 - birth < 40 then "Young (<40)" else "Older (>=40)"
    category := cat
    country := ctry
    industries := ind
    cpi_change_country := 0
    tax_revenue_country_country := 0 }

/-! ## Loader lemmas -/

/-- Unpack a successful single-row load: the worth parsed, and every
derived column has the value the loader assigns. -/
lemma loadRow_eq_some {raw : RawRow} {r : Row} (h : loadRow raw = some r) :
    ∃ w, parseWorth raw.finalWorth = some w ∧
      r = { finalWorth := w
            birthYear := raw.birthYear
            age := 2023 - raw.birthYear
            is_young := decide (2023 - raw.birthYear < 40)
            age_group := if 2023 - raw.birthYear < 40 then "Young (<40)" else "Older (>=40)"
            category := raw.category
            country := raw.country
            industries := raw.industries
            cpi_change_country := raw.cpi_change_country
            tax_revenue_country_country := raw.tax_revenue_country_country } := by
  simp only [loadRow, Option.map_eq_some'] at h
  obtain ⟨w, hw, hr⟩ := h
  exact ⟨w, hw, hr.symm⟩

/-- Every row of a successfully loaded table is the load of one of the
raw rows. -/
lemma loadTable_mem {rs : List RawRow} {t : List Row} (h : loadTable rs = some t)
    {r : Row} (hr : r ∈ t) : ∃ raw ∈ rs, loadRow raw = some r := by
  induction rs generalizing t with
  | nil =>
      simp only [loadTable, Option.some.injEq] at h
      subst h
      cases hr
  | cons raw rs ih =>
      simp only [loadTable] at h
      rcases hlr : loadRow raw with _ | x
      · rw [hlr] at h
        cases htl : loadTable rs <;> rw [htl] at h <;> exact Option.noConfusion h
      · rw [hlr] at h
        rcases htl : loadTable rs with _ | xs
        · rw [htl] at h
          exact Option.noConfusion h
        · rw [htl] at h
          obtain rfl := Option.some.inj h
          rcases List.mem_cons.mp hr with rfl | hmem
          · exact ⟨raw, List.mem_cons_self _ _, hlr⟩
          · obtain ⟨raw2, hraw2, hload2⟩ := ih htl hmem
            exact ⟨raw2, List.mem_cons_of_mem _ hraw2, hload2⟩

/-- An unparsable worth anywhere in the input aborts the whole load. -/
lemma loadTable_abort {rs : List RawRow} {raw : RawRow} (hmem : raw ∈ rs)
    (hfail : parseWorth raw.finalWorth = none) : loadTable rs = none := by
  induction rs with
  | nil => cases hmem
  | cons r rs ih =>
      rcases List.mem_cons.mp hmem with rfl | hmem2
      · have hlr : loadRow raw = none := by simp [loadRow, hfail]
        cases htl : loadTable rs <;> simp [loadTable, hlr, htl]
      · have htl : loadTable rs = none := ih hmem2
        cases hlr : loadRow r <;> simp [loadTable, hlr, htl]

/-- An unsigned decimal literal parses to a non-negative rational. -/
lemma parseUnsigned_nonneg {l : List Char} {q : Rat} (h : parseUnsigned l = some q) :
    0 ≤ q := by
  simp only [parseUnsigned] at h
  split at h
  · split at h
    · exact Option.noConfusion h
    · obtain rfl := Option.some.inj h
      positivity
  · split at h
    · obtain rfl := Option.some.inj h
      positivity
    · exact Option.noConfusion h
  · exact Option.noConfusion h

/-- A signed decimal literal without a minus sign parses to a
non-negative rational. -/
lemma parseSigned_nonneg {l : List Char} (hm : '-' ∉ l) {q : Rat}
    (h : parseSigned l = some q) : 0 ≤ q := by
  match l with
  | [] => exact Option.noConfusion h
  | c :: rest =>
      simp only [parseSigned] at h
      have hcne : c ≠ '-' := by
        intro hc
        subst hc
        exact hm (List.mem_cons_self _ _)
      rw [if_neg hcne] at h
      split at h
      · exact parseUnsigned_nonneg h
      · exact parseUnsigned_nonneg h

/-! ## Claim theorems -/

/-- C1: the worth parser strips currency symbols (`$`) and thousands
separators (`,`) and converts the remainder to a number; `"$1,234.50"`
parses to 1234.50, `"$0"` parses to 0.0, and a worth field that is
non-numeric after stripping makes the whole load fail. -/
theorem C1_worth_parsing :
    parseWorth "$1,234.50" = some (2469 / 2 : Rat)
      ∧ parseWorth "$0" = some 0
      ∧ (∀ s : String, parseWorth s = parseSigned (stripWorth s))
      ∧ ∀ rs : List RawRow, ∀ raw ∈ rs,
          parseWorth raw.finalWorth = none → loadTable rs = none := by
  refine ⟨?_, by decide, fun s => rfl, fun rs raw hmem hfail => loadTable_abort hmem hfail⟩
  have h : parseWorth "$1,234.50"
      = some (((1234 : Nat) : Rat) + ((50 : Nat) : Rat) / 10 ^ 2) := rfl
  rw [h]
  norm_num

/-- C1 witness: a table whose only worth field is `"abc"` fails to load. -/
theorem C1_worth_parsing_witness :
    loadTable [mkRaw "abc" 1980 "Technology" "United States" "Technology"] = none :=
  C1_worth_parsing.2.2.2 [mkRaw "abc" 1980 "Technology" "United States" "Technology"]
    (mkRaw "abc" 1980 "Technology" "United States" "Technology")
    (List.mem_cons_self _ _) (by decide)

/-- C2: in every successfully loaded table, `age = 2023 - birthYear`
(the reference year is the constant 2023), `is_young = (age < 40)`, and
`age_group` is `'Young (<40)'` exactly when `age < 40` and
`'Older (>=40)'` otherwise — both derived columns are functions of age
computed at load. -/
theorem C2_derived_columns {rs : List RawRow} {t : List Row}
    (h : loadTable rs = some t) :
    ∀ r ∈ t,
      r.age = 2023 - r.birthYear
        ∧ r.is_young = decide (r.age < 40)
        ∧ (r.age_group = "Young (<40)" ↔ r.age < 40)
        ∧ (r.age_group = "Older (>=40)" ↔ ¬ r.age < 40) := by
  intro r hr
  obtain ⟨raw, _, hload⟩ := loadTable_mem h hr
  obtain ⟨w, hw, rfl⟩ := loadRow_eq_some hload
  refine ⟨rfl, rfl, ?_, ?_⟩ <;> by_cases hage : 2023 - raw.birthYear < 40 <;>
    simp [hage]

/-- C2 witness: the derived columns of a concrete one-row load. -/
theorem C2_derived_columns_witness :
    (mkRow 1000 1990 "Technology" "United States" "Technology").age
        = 2023 - (mkRow 1000 1990 "Technology" "United States" "Technology").birthYear
      ∧ (mkRow 1000 1990 "Technology" "United States" "Technology").is_young
          = decide ((mkRow 1000 1990 "Technology" "United States" "Technology").age < 40)
      ∧ ((mkRow 1000 1990 "Technology" "United States" "Technology").age_group
            = "Young (<40)"
          ↔ (mkRow 1000 1990 "Technology" "United States" "Technology").age < 40)
      ∧ ((mkRow 1000 1990 "Technology" "United States" "Technology").age_group
            = "Older (>=40)"
          ↔ ¬ (mkRow 1000 1990 "Technology" "United States" "Technology").age < 40) :=
  @C2_derived_columns [mkRaw "$1,000" 1990 "Technology" "United States" "Technology"]
    [mkRow 1000 1990 "Technology" "United States" "Technology"] (by decide)
    (mkRow 1000 1990 "Technology" "United States" "Technology") (List.mem_cons_self _ _)

/-- C3 as stated is false of the code: the loader accepts a minus sign
(Python `float` does), so a raw worth of `"-5"` loads successfully to the
negative value −5. -/
theorem C3_counterexample :
    ¬ ∀ (rs : List RawRow) (t : List Row), loadTable rs = some t →
        ∀ r ∈ t, 0 ≤ r.finalWorth := by
  intro hall
  have h := hall [mkRaw "-5" 1980 "Technology" "United States" "Technology"]
    [mkRow (-5) 1980 "Technology" "United States" "Technology"] (by decide)
    (mkRow (-5) 1980 "Technology" "United States" "Technology")
    (List.mem_cons_self _ _)
  norm_num [mkRow] at h

/-- C3 amended: every row loaded from raw rows whose worth field contains
no minus sign has a non-negative parsed worth. -/
theorem C3_worth_nonneg {rs : List RawRow} {t : List Row}
    (h : loadTable rs = some t)
    (hsign : ∀ raw ∈ rs, '-' ∉ stripWorth raw.finalWorth) :
    ∀ r ∈ t, 0 ≤ r.finalWorth := by
  intro r hr
  obtain ⟨raw, hraw, hload⟩ := loadTable_mem h hr
  obtain ⟨w, hw, rfl⟩ := loadRow_eq_some hload
  exact parseSigned_nonneg (hsign raw hraw) hw

/-- C3 witness: the concrete one-row load of worth `"$1,000"` yields a
non-negative worth. -/
theorem C3_worth_nonneg_witness :
    0 ≤ (mkRow 1000 1990 "Technology" "United States" "Technology").finalWorth :=
  @C3_worth_nonneg [mkRaw "$1,000" 1990 "Technology" "United States" "Technology"]
    [mkRow 1000 1990 "Technology" "United States" "Technology"] (by decide) (by decide)
    (mkRow 1000 1990 "Technology" "United States" "Technology") (List.mem_cons_self _ _)

/-- C4: the average-wealth-by-category view is invariant under any
control change — two arbitrary selected categories produce the same
chart data — and every entry of that data is the arithmetic mean of
`finalWorth` over the rows of its category in the full table. -/
theorem C4_avg_wealth_invariant :
    (∀ (c1 c2 : String) (t : List Row),
        update_avg_wealth c1 t = update_avg_wealth c2 t)
      ∧ ∀ (c : String) (t : List Row) (cat : String) (q : Rat),
          (cat, q) ∈ update_avg_wealth c t →
            q = ((filterByCategory cat t).map Row.finalWorth).sum
              / ((filterByCategory cat t).length : Rat) := by
  refine ⟨fun c1 c2 t => rfl, ?_⟩
  intro c t cat q hmem
  simp only [update_avg_wealth, avgWealthByCategory, List.mem_map] at hmem
  obtain ⟨c0, _, heq⟩ := hmem
  injection heq with h1 h2
  subst h1
  exact h2.symm

/-- C4 witness: on a concrete two-category table the mean of the
`"Technology"` entry is the mean over the full table's technology rows. -/
theorem C4_avg_wealth_invariant_witness :
    (500 : Rat)
      = ((filterByCategory "Technology"
            [mkRow 500 1990 "Technology" "United States" "Technology",
             mkRow 900 1960 "Finance" "France" "Finance"]).map Row.finalWorth).sum
        / ((filterByCategory "Technology"
            [mkRow 500 1990 "Technology" "United States" "Technology",
             mkRow 900 1960 "Finance" "France" "Finance"]).length : Rat) :=
  C4_avg_wealth_invariant.2 "Finance"
    [mkRow 500 1990 "Technology" "United States" "Technology",
     mkRow 900 1960 "Finance" "France" "Finance"] "Technology" 500
    (by simp [update_avg_wealth, avgWealthByCategory, filterByCategory, mkRow])

/-- C5: filtering the table by a category is idempotent — applying the
category filter twice yields the same rows as applying it once. -/
theorem C5_filter_idempotent (c : String) (t : List Row) :
    filterByCategory c (filterByCategory c t) = filterByCategory c t := by
  simp [filterByCategory, List.filter_filter]

/-- The age buckets 0-40 and 41-100 partition the rows with age in
0-100: concatenating the two filtered lists is a permutation of the
single filter over the union range. -/
lemma filterAge_partition (t : List Row) :
    (filterAge 0 40 t ++ filterAge 41 100 t).Perm
      (t.filter fun r => decide (0 ≤ r.age) && decide (r.age ≤ 100)) := by
  induction t with
  | nil => rfl
  | cons r ts ih =>
      simp only [filterAge] at ih ⊢
      rcases Decidable.em (0 ≤ r.age) with hlow | hlow
      · rcases Decidable.em (r.age ≤ 40) with hmid | hmid
        · have b1 : (decide ((0:Int) ≤ r.age) && decide (r.age ≤ 40)) = true := by
            simp [hlow, hmid]
          have b2 : (decide ((41:Int) ≤ r.age) && decide (r.age ≤ 100)) = false := by
            simp only [Bool.and_eq_false_iff, decide_eq_false_iff_not]
            left
            omega
          have b3 : (decide ((0:Int) ≤ r.age) && decide (r.age ≤ 100)) = true := by
            simp only [Bool.and_eq_true, decide_eq_true_eq]
            omega
          simp only [List.filter_cons]
          rw [b1, b2, b3]
          exact ih.cons r
        · rcases Decidable.em (r.age ≤ 100) with hhi | hhi
          · have b1 : (decide ((0:Int) ≤ r.age) && decide (r.age ≤ 40)) = false := by
              simp only [Bool.and_eq_false_iff, decide_eq_false_iff_not]
              right
              omega
            have b2 : (decide ((41:Int) ≤ r.age) && decide (r.age ≤ 100)) = true := by
              simp only [Bool.and_eq_true, decide_eq_true_eq]
              omega
            have b3 : (decide ((0:Int) ≤ r.age) && decide (r.age ≤ 100)) = true := by
              simp only [Bool.and_eq_true, decide_eq_true_eq]
              omega
            simp only [List.filter_cons]
            rw [b1, b2, b3]
            exact List.perm_middle.trans (ih.cons r)
          · have b1 : (decide ((0:Int) ≤ r.age) && decide (r.age ≤ 40)) = false := by
              simp only [Bool.and_eq_false_iff, decide_eq_false_iff_not]
              right
              omega
            have b2 : (decide ((41:Int) ≤ r.age) && decide (r.age ≤ 100)) = false := by
              simp only [Bool.and_eq_false_iff, decide_eq_false_iff_not]
              right
              omega
            have b3 : (decide ((0:Int) ≤ r.age) && decide (r.age ≤ 100)) = false := by
              simp only [Bool.and_eq_false_iff, decide_eq_false_iff_not]
              right
              omega
            simp only [List.filter_cons]
            rw [b1, b2, b3]
            exact ih
      · have b1 : (decide ((0:Int) ≤ r.age) && decide (r.age ≤ 40)) = false := by
          simp only [Bool.and_eq_false_iff, decide_eq_false_iff_not]
          left
          omega
        have b2 : (decide ((41:Int) ≤ r.age) && decide (r.age ≤ 100)) = false := by
          simp only [Bool.and_eq_false_iff, decide_eq_false_iff_not]
          left
          omega
        have b3 : (decide ((0:Int) ≤ r.age) && decide (r.age ≤ 100)) = false := by
          simp only [Bool.and_eq_false_iff, decide_eq_false_iff_not]
          left
          omega
        simp only [List.filter_cons]
        rw [b1, b2, b3]
        exact ih

/-- C6: the age-range filter of the scatter view is inclusive at both
ends — range (0, 40) keeps exactly the rows with 0 ≤ age ≤ 40 and range
(40, 100) exactly those with 40 ≤ age ≤ 100 — and the ranges (0, 40) and
(41, 100) are disjoint and together cover every row with age in 0-100
exactly once. -/
theorem C6_age_range_inclusive (t : List Row) :
    (∀ r : Row, r ∈ filterAge 0 40 t ↔ r ∈ t ∧ 0 ≤ r.age ∧ r.age ≤ 40)
      ∧ (∀ r : Row, r ∈ filterAge 40 100 t ↔ r ∈ t ∧ 40 ≤ r.age ∧ r.age ≤ 100)
      ∧ (∀ r : Row, r ∈ filterAge 0 40 t → r ∉ filterAge 41 100 t)
      ∧ (filterAge 0 40 t ++ filterAge 41 100 t).Perm
          (t.filter fun r => decide (0 ≤ r.age) && decide (r.age ≤ 100)) := by
  refine ⟨?_, ?_, ?_, filterAge_partition t⟩
  · intro r
    simp [filterAge, List.mem_filter, and_assoc]
  · intro r
    simp [filterAge, List.mem_filter, and_assoc]
  · intro r h1 h2
    simp only [filterAge, List.mem_filter, Bool.and_eq_true, decide_eq_true_eq] at h1 h2
    omega

/-- C6 witness: a concrete row of age 33 selected by range (0, 40) is
not selected by range (41, 100). -/
theorem C6_age_range_inclusive_witness :
    mkRow 1000 1990 "Technology" "United States" "Technology"
      ∉ filterAge 41 100 [mkRow 1000 1990 "Technology" "United States" "Technology"] :=
  (C6_age_range_inclusive
      [mkRow 1000 1990 "Technology" "United States" "Technology"]).2.2.1
    (mkRow 1000 1990 "Technology" "United States" "Technology") (by decide)

/-- C7: with the show-all toggle set, the country view counts records per
country over the full table for every selected category; on the concrete
table with countries A, A, A, B it returns the counts A ↦ 3, B ↦ 1. -/
theorem C7_country_counts :
    (∀ (sel : String) (t : List Row),
        update_country_plot sel true t = value_counts (t.map Row.country))
      ∧ update_country_plot "Finance" true
          [mkRow 100 1950 "Technology" "A" "Technology",
           mkRow 200 1960 "Finance" "A" "Finance",
           mkRow 300 1970 "Energy" "A" "Energy",
           mkRow 400 1980 "Fashion" "B" "Fashion"]
          = [("A", 3), ("B", 1)]
      ∧ ∀ sel1 sel2 : String,
          update_country_plot sel1 true
            [mkRow 100 1950 "Technology" "A" "Technology",
             mkRow 200 1960 "Finance" "A" "Finance",
             mkRow 300 1970 "Energy" "A" "Energy",
             mkRow 400 1980 "Fashion" "B" "Fashion"]
            = update_country_plot sel2 true
              [mkRow 100 1950 "Technology" "A" "Technology",
               mkRow 200 1960 "Finance" "A" "Finance",
               mkRow 300 1970 "Energy" "A" "Energy",
               mkRow 400 1980 "Fashion" "B" "Fashion"] :=
  ⟨fun sel t => rfl, by decide, fun sel1 sel2 => rfl⟩

/-- C8: end-to-end scenario for the age-group-proportions view — loading
three records with birth years 1960, 1970 and 1990 gives ages 63, 53 and
33, and the age-range filter (0, 40) keeps exactly the 1990 record,
classified `'Young (<40)'` and counted once under its industry, with the
other two records excluded. -/
theorem C8_young_scenario :
    loadTable
        [mkRaw "$5,000" 1960 "Finance" "United States" "Finance",
         mkRaw "$3,000" 1970 "Energy" "France" "Energy",
         mkRaw "$2,000" 1990 "Technology" "China" "Technology"]
      = some
        [mkRow 5000 1960 "Finance" "United States" "Finance",
         mkRow 3000 1970 "Energy" "France" "Energy",
         mkRow 2000 1990 "Technology" "China" "Technology"]
      ∧ (mkRow 5000 1960 "Finance" "United States" "Finance").age = 63
      ∧ (mkRow 3000 1970 "Energy" "France" "Energy").age = 53
      ∧ (mkRow 2000 1990 "Technology" "China" "Technology").age = 33
      ∧ filterAge 0 40
          [mkRow 5000 1960 "Finance" "United States" "Finance",
           mkRow 3000 1970 "Energy" "France" "Energy",
           mkRow 2000 1990 "Technology" "China" "Technology"]
        = [mkRow 2000 1990 "Technology" "China" "Technology"]
      ∧ (mkRow 2000 1990 "Technology" "China" "Technology").age_group = "Young (<40)"
      ∧ youngBillionairesData 0 40
          [mkRow 5000 1960 "Finance" "United States" "Finance",
           mkRow 3000 1970 "Energy" "France" "Energy",
           mkRow 2000 1990 "Technology" "China" "Technology"]
        = [(("Technology", "Young (<40)"), 1)] := by
  refine ⟨by decide, by decide, by decide, by decide, by decide, by decide, by decide⟩

/-- C9: the loaded table is immutable from the views' perspective — every
render invocation returns the process state unchanged, and a later render
after any earlier one produces the same result as rendering the original
state. -/
theorem C9_views_pure :
    (∀ (v : ViewId) (c : Controls) (s : DashState), (renderView v c s).1 = s)
      ∧ ∀ (v1 v2 : ViewId) (c1 c2 : Controls) (s : DashState),
          renderView v2 c2 ((renderView v1 c1 s).1) = renderView v2 c2 s := by
  constructor
  · intro v c s
    cases v <;> rfl
  · intro v1 v2 c1 c2 s
    have h : (renderView v1 c1 s).1 = s := by cases v1 <;> rfl
    rw [h]

/-- C10: the economic-indicators render function is total exactly on the
two listed indicator values — for every year range it returns a chart for
`'CPI Change'` and `'Tax Revenue'` and raises (models as `none`) for any
other indicator value. -/
theorem C10_indicator_totality (yr : Int × Int) (ind : String) (t : List Row) :
    ((ind = "CPI Change" ∨ ind = "Tax Revenue") →
        (update_scatter_plot yr ind t).isSome = true)
      ∧ (ind ≠ "CPI Change" → ind ≠ "Tax Revenue" →
          update_scatter_plot yr ind t = none) := by
  constructor
  · rintro (rfl | rfl) <;> simp [update_scatter_plot]
  · intro h1 h2
    simp [update_scatter_plot, h1, h2]

/-- C10 witness: at a concrete year range, indicator `'CPI Change'`
renders a chart and the unknown indicator `'Bogus'` renders none. -/
theorem C10_indicator_totality_witness :
    (update_scatter_plot (1920, 2023) "CPI Change" []).isSome = true
      ∧ update_scatter_plot (1920, 2023) "Bogus" [] = none :=
  ⟨(C10_indicator_totality (1920, 2023) "CPI Change" []).1 (Or.inl rfl),
   (C10_indicator_totality (1920, 2023) "Bogus" []).2 (by decide) (by decide)⟩
